import Mathlib

/-!
Shallow embedding of the server actions of the polling application
(`app/lib/actions/auth-actions.ts` and the poll-actions module).

The rate limiter is the in-process map `rateLimit` together with
`checkRateLimit`; the actions (`login`, `createPoll`, `submitVote`,
`deletePoll`, ...) are modelled as pure functions over an explicit
rate-limit table, an explicit database state, and an environment record
holding the responses of the hosted backend (session user, injected
backend errors).  JavaScript `Date.now()` becomes an explicit `now : Nat`
parameter; the distinction between JavaScript `null`, `undefined` and a
string in the returned `error` field is kept via the `ErrVal` type.
-/

/-- One value of the `rateLimit` map: `{ count, lastReset }`. -/
structure RateLimitEntry where
  count : Nat
  lastReset : Nat
deriving Repr, DecidableEq

/-- `const MAX_ATTEMPTS = 5`. -/
def MAX_ATTEMPTS : Nat := 5

/-- `const RESET_INTERVAL = 60 * 1000`. -/
def RESET_INTERVAL : Nat := 60 * 1000

/-- The `rateLimit : Map<string, {count, lastReset}>` table, as an
association list keyed by the rate-limit key. -/
abbrev RLTable := List (String × RateLimitEntry)

/-- `rateLimit.get(key)` (with `has` folded in: `none` means absent). -/
def rlLookup : RLTable → String → Option RateLimitEntry
  | [], _ => none
  | (k, e) :: rest, key => if k = key then some e else rlLookup rest key

/-- `rateLimit.set(key, e)`: replace the binding if present, else append. -/
def rlSet : RLTable → String → RateLimitEntry → RLTable
  | [], key, e => [(key, e)]
  | (k, e0) :: rest, key, e =>
      if k = key then (k, e) :: rest else (k, e0) :: rlSet rest key e

/-- `checkRateLimit(key)` of the source, with the ambient `Date.now()` and
the ambient table made explicit.  Returns the boolean result and the table
after the call.  The source's single condition
`!rateLimit.has(key) || now - lastReset > RESET_INTERVAL` is split into the
`none` match arm and the first `if`. -/
def checkRateLimit (tbl : RLTable) (key : String) (now : Nat) : Bool × RLTable :=
  match rlLookup tbl key with
  | none => (true, rlSet tbl key ⟨1, now⟩)
  | some entry =>
      if RESET_INTERVAL < now - entry.lastReset then
        (true, rlSet tbl key ⟨1, now⟩)
      else if MAX_ATTEMPTS ≤ entry.count then
        (false, tbl)
      else
        (true, rlSet tbl key ⟨entry.count + 1, entry.lastReset⟩)

/-- Run a sequence of `checkRateLimit` calls, threading the table;
returns the list of boolean results and the final table. -/
def runCalls : RLTable → List (String × Nat) → List Bool × RLTable
  | tbl, [] => ([], tbl)
  | tbl, c :: rest =>
      let r := checkRateLimit tbl c.1 c.2
      let rr := runCalls r.2 rest
      (r.1 :: rr.1, rr.2)

theorem rlLookup_rlSet (tbl : RLTable) (k k' : String) (e : RateLimitEntry) :
    rlLookup (rlSet tbl k e) k' = if k = k' then some e else rlLookup tbl k' := by
  induction tbl with
  | nil => simp [rlSet, rlLookup]
  | cons hd rest ih =>
      by_cases h1 : hd.1 = k
      · subst h1
        by_cases h2 : hd.1 = k'
        · simp [rlSet, rlLookup, h2]
        · simp [rlSet, rlLookup, h2]
      · by_cases h2 : hd.1 = k'
        · subst h2
          simp [rlSet, rlLookup, h1]
          rw [if_neg (fun h => h1 h.symm)]
        · simp [rlSet, rlLookup, h1, h2, ih]

theorem rlLookup_rlSet_self (tbl : RLTable) (k : String) (e : RateLimitEntry) :
    rlLookup (rlSet tbl k e) k = some e := by
  simp [rlLookup_rlSet]

theorem crl_fresh (tbl : RLTable) (key : String) (now : Nat)
    (h : rlLookup tbl key = none) :
    checkRateLimit tbl key now = (true, rlSet tbl key ⟨1, now⟩) := by
  simp [checkRateLimit, h]

theorem crl_reset (tbl : RLTable) (key : String) (now : Nat) (e : RateLimitEntry)
    (h : rlLookup tbl key = some e) (hw : RESET_INTERVAL < now - e.lastReset) :
    checkRateLimit tbl key now = (true, rlSet tbl key ⟨1, now⟩) := by
  simp [checkRateLimit, h, hw]

theorem crl_incr (tbl : RLTable) (key : String) (now : Nat) (c w : Nat)
    (h : rlLookup tbl key = some ⟨c, w⟩) (hw : now - w ≤ RESET_INTERVAL)
    (hc : c < MAX_ATTEMPTS) :
    checkRateLimit tbl key now = (true, rlSet tbl key ⟨c + 1, w⟩) := by
  simp [checkRateLimit, h, Nat.not_lt.mpr hw, Nat.not_le.mpr hc]

theorem crl_deny (tbl : RLTable) (key : String) (now : Nat) (c w : Nat)
    (h : rlLookup tbl key = some ⟨c, w⟩) (hw : now - w ≤ RESET_INTERVAL)
    (hc : MAX_ATTEMPTS ≤ c) :
    checkRateLimit tbl key now = (false, tbl) := by
  simp [checkRateLimit, h, Nat.not_lt.mpr hw, hc]

/-- The per-key invariant of the rate-limit table: every entry present has
`1 <= count <= MAX_ATTEMPTS`. -/
def rlInv (tbl : RLTable) : Prop :=
  ∀ k e, rlLookup tbl k = some e → 1 ≤ e.count ∧ e.count ≤ MAX_ATTEMPTS

theorem rlInv_checkRateLimit (tbl : RLTable) (key : String) (now : Nat)
    (h : rlInv tbl) : rlInv (checkRateLimit tbl key now).2 := by
  unfold checkRateLimit
  cases hl : rlLookup tbl key with
  | none =>
      intro k e he
      simp only [rlLookup_rlSet] at he
      split at he
      · cases he; exact ⟨Nat.le_refl 1, by norm_num [MAX_ATTEMPTS]⟩
      · exact h k e he
  | some entry =>
      by_cases hw : RESET_INTERVAL < now - entry.lastReset
      · simp only [hw, if_true]
        intro k e he
        simp only [rlLookup_rlSet] at he
        split at he
        · cases he; exact ⟨Nat.le_refl 1, by norm_num [MAX_ATTEMPTS]⟩
        · exact h k e he
      · by_cases hc : MAX_ATTEMPTS ≤ entry.count
        · simp only [hw, if_false, hc, if_true]
          exact h
        · simp only [hw, if_false, hc, if_true]
          intro k e he
          simp only [rlLookup_rlSet] at he
          split at he
          · cases he
            refine ⟨Nat.le_add_left 1 entry.count, ?_⟩
            exact Nat.succ_le_of_lt (Nat.lt_of_not_le hc)
          · exact h k e he

theorem rlInv_runCalls (calls : List (String × Nat)) (tbl : RLTable)
    (h : rlInv tbl) : rlInv (runCalls tbl calls).2 := by
  induction calls generalizing tbl with
  | nil => exact h
  | cons c rest ih =>
      simp only [runCalls]
      exact ih _ (rlInv_checkRateLimit tbl c.1 c.2 h)

/-- C1: starting from a table with no entry for `key`, five `checkRateLimit`
calls whose times all lie within `RESET_INTERVAL` of the first call return
`true` each, and the sixth call within the same window returns `false`. -/
theorem checkRateLimit_five_allowed_sixth_denied
    (tbl : RLTable) (key : String) (t1 t2 t3 t4 t5 t6 : Nat)
    (h0 : rlLookup tbl key = none)
    (h2 : t2 - t1 ≤ RESET_INTERVAL) (h3 : t3 - t1 ≤ RESET_INTERVAL)
    (h4 : t4 - t1 ≤ RESET_INTERVAL) (h5 : t5 - t1 ≤ RESET_INTERVAL)
    (h6 : t6 - t1 ≤ RESET_INTERVAL) :
    (runCalls tbl [(key, t1), (key, t2), (key, t3), (key, t4), (key, t5), (key, t6)]).1
      = [true, true, true, true, true, false] := by
  have s1 := crl_fresh tbl key t1 h0
  have s2 := crl_incr (rlSet tbl key ⟨1, t1⟩) key t2 1 t1
    (rlLookup_rlSet_self tbl key ⟨1, t1⟩) h2 (by norm_num [MAX_ATTEMPTS])
  have s3 := crl_incr (rlSet (rlSet tbl key ⟨1, t1⟩) key ⟨2, t1⟩) key t3 2 t1
    (rlLookup_rlSet_self _ key ⟨2, t1⟩) h3 (by norm_num [MAX_ATTEMPTS])
  have s4 := crl_incr (rlSet (rlSet (rlSet tbl key ⟨1, t1⟩) key ⟨2, t1⟩) key ⟨3, t1⟩)
    key t4 3 t1 (rlLookup_rlSet_self _ key ⟨3, t1⟩) h4 (by norm_num [MAX_ATTEMPTS])
  have s5 := crl_incr
    (rlSet (rlSet (rlSet (rlSet tbl key ⟨1, t1⟩) key ⟨2, t1⟩) key ⟨3, t1⟩) key ⟨4, t1⟩)
    key t5 4 t1 (rlLookup_rlSet_self _ key ⟨4, t1⟩) h5 (by norm_num [MAX_ATTEMPTS])
  have s6 := crl_deny
    (rlSet (rlSet (rlSet (rlSet (rlSet tbl key ⟨1, t1⟩) key ⟨2, t1⟩) key ⟨3, t1⟩)
      key ⟨4, t1⟩) key ⟨5, t1⟩)
    key t6 5 t1 (rlLookup_rlSet_self _ key ⟨5, t1⟩) h6 (by norm_num [MAX_ATTEMPTS])
  simp [runCalls, s1, s2, s3, s4, s5, s6]

/-- Witness for C1 at a concrete key and concrete times. -/
theorem checkRateLimit_five_allowed_sixth_denied_witness :
    (runCalls [] [("k", 0), ("k", 1), ("k", 2), ("k", 3), ("k", 4), ("k", 5)]).1
      = [true, true, true, true, true, false] :=
  checkRateLimit_five_allowed_sixth_denied [] "k" 0 1 2 3 4 5 rfl
    (by decide) (by decide) (by decide) (by decide) (by decide)

/-- C9: once more than `RESET_INTERVAL` has elapsed since the entry's window
start, the next `checkRateLimit` call returns `true` and resets the entry to
`count = 1` with window start `now`, whatever the previous entry was
(in particular after prior denials). -/
theorem checkRateLimit_resets_after_window
    (tbl : RLTable) (key : String) (now : Nat) (e : RateLimitEntry)
    (h : rlLookup tbl key = some e)
    (hw : RESET_INTERVAL < now - e.lastReset) :
    (checkRateLimit tbl key now).1 = true ∧
    rlLookup (checkRateLimit tbl key now).2 key = some ⟨1, now⟩ := by
  rw [crl_reset tbl key now e h hw]
  exact ⟨rfl, rlLookup_rlSet_self tbl key ⟨1, now⟩⟩

/-- Witness for C9: a saturated entry (count 5) resets after the window. -/
theorem checkRateLimit_resets_after_window_witness :
    (checkRateLimit [("k", ⟨5, 0⟩)] "k" 60001).1 = true ∧
    rlLookup (checkRateLimit [("k", ⟨5, 0⟩)] "k" 60001).2 "k" = some ⟨1, 60001⟩ :=
  checkRateLimit_resets_after_window [("k", ⟨5, 0⟩)] "k" 60001 ⟨5, 0⟩ rfl (by decide)

/-- C10: after any finite sequence of `checkRateLimit` calls starting from
the empty table, every entry present satisfies `1 <= count <= MAX_ATTEMPTS`. -/
theorem runCalls_count_invariant (calls : List (String × Nat))
    (k : String) (e : RateLimitEntry)
    (h : rlLookup (runCalls [] calls).2 k = some e) :
    1 ≤ e.count ∧ e.count ≤ MAX_ATTEMPTS :=
  rlInv_runCalls calls [] (fun _ _ h0 => by simp [rlLookup] at h0) k e h

/-- Witness for C10 on a concrete call sequence. -/
theorem runCalls_count_invariant_witness :
    rlLookup (runCalls [] [("k", 0), ("k", 1)]).2 "k" = some ⟨2, 0⟩ ∧
    (1 ≤ (2 : Nat) ∧ (2 : Nat) ≤ MAX_ATTEMPTS) :=
  ⟨by decide, runCalls_count_invariant [("k", 0), ("k", 1)] "k" ⟨2, 0⟩ (by decide)⟩

/-! ## Zod schemas and the shape of returned errors -/

/-- One zod issue: its `path` (field names and array indices, rendered as
strings; empty for a top-level issue) and its human-readable `message`. -/
structure Issue where
  path : List String
  message : String
deriving Repr, DecidableEq

/-- A JavaScript value stored in the `error` field of a returned result:
`null`, `undefined`, or a string. -/
inductive ErrVal where
  | nullv
  | undef
  | msg (s : String)
deriving Repr, DecidableEq

/-- `error.flatten().formErrors[0]` of a zod error: `flatten` puts only the
issues with an empty path into `formErrors` (field-level issues go to
`fieldErrors`), and indexing an empty array gives `undefined`. -/
def formErrorsHead (issues : List Issue) : ErrVal :=
  match (issues.filter (fun i => i.path.isEmpty)).map Issue.message with
  | [] => .undef
  | m :: _ => .msg m

/-- Hexadecimal digit, either case. -/
def isHexDigit (c : Char) : Bool :=
  (('0' ≤ c) && (c ≤ '9')) || (('a' ≤ c) && (c ≤ 'f')) || (('A' ≤ c) && (c ≤ 'F'))

/-- Character admissible at position `i` of a UUID string. -/
def uuidCharOk (i : Nat) (c : Char) : Bool :=
  if i = 8 || i = 13 || i = 18 || i = 23 then c = '-' else isHexDigit c

/-- `z.string().uuid()`: the 8-4-4-4-12 hexadecimal syntax with dashes at
positions 8, 13, 18 and 23. -/
def isUuid (s : String) : Bool :=
  s.toList.length = 36 && s.toList.enum.all (fun p => uuidCharOk p.1 p.2)

/-- `z.string().email()`, modelled as: exactly one `@`, both sides
nonempty, no spaces, and a dot in the domain. -/
def isValidEmail (s : String) : Bool :=
  let cs := s.toList
  let before := cs.takeWhile (fun c => c ≠ '@')
  match cs.dropWhile (fun c => c ≠ '@') with
  | '@' :: domain =>
      (!before.isEmpty) && (!domain.isEmpty) && (!domain.contains '@') &&
      (!cs.contains ' ') && domain.contains '.'
  | _ => false

/-- `idSchema = z.string().uuid("Invalid ID format")` via `safeParse`:
a failure carries a single top-level issue. -/
def idSchemaParse (s : String) : Except (List Issue) String :=
  if isUuid s then .ok s else .error [⟨[], "Invalid ID format"⟩]

/-- `voteSchema.safeParse({pollId, optionIndex})`: `pollId` must be a UUID,
`optionIndex` an integer at least 0; issues carry the field path. -/
def voteSchemaParse (pollId : String) (optionIndex : Int) :
    Except (List Issue) (String × Int) :=
  let issues :=
    (if isUuid pollId then [] else [⟨["pollId"], "Invalid poll ID format"⟩]) ++
    (if optionIndex < 0 then [⟨["optionIndex"], "Option index cannot be negative"⟩] else [])
  if issues.isEmpty then .ok (pollId, optionIndex) else .error issues

/-- `loginSchema.safeParse(data)`: email format and password length, issues
on the field paths. -/
def loginSchemaParse (email password : String) :
    Except (List Issue) (String × String) :=
  let issues :=
    (if isValidEmail email then [] else [⟨["email"], "Invalid email address"⟩]) ++
    (if password.length < 6 then
      [⟨["password"], "Password must be at least 6 characters long"⟩] else [])
  if issues.isEmpty then .ok (email, password) else .error issues

/-- `String.trim` (drop whitespace from both ends), written over the
character list so that it evaluates by kernel reduction. -/
def trimString (s : String) : String :=
  ⟨((s.toList.dropWhile Char.isWhitespace).reverse.dropWhile Char.isWhitespace).reverse⟩

/-- One option string checked by
`z.string().min(1, ...).max(100, ...).trim()` at array index `i`. -/
def optionIssues (i : Nat) (s : String) : List Issue :=
  if s.length < 1 then [⟨["options", toString i], "Option cannot be empty"⟩]
  else if 100 < s.length then
    [⟨["options", toString i], "Option cannot exceed 100 characters"⟩]
  else []

/-- `pollSchema.parse`/`safeParse` on `{question, options}`: the question is
checked for length in [5, 255] then trimmed; every option for length in
[1, 100] then trimmed; the array must have at least two entries. -/
def pollSchemaParse (question : String) (options : List String) :
    Except (List Issue) (String × List String) :=
  let qIssues :=
    if question.length < 5 then
      [⟨["question"], "Question must be at least 5 characters long"⟩]
    else if 255 < question.length then
      [⟨["question"], "Question cannot exceed 255 characters"⟩]
    else []
  let optIssues := (options.enum.map (fun p => optionIssues p.1 p.2)).flatten
  let arrIssues :=
    if options.length < 2 then [⟨["options"], "Please provide at least two options"⟩]
    else []
  let issues := qIssues ++ optIssues ++ arrIssues
  if issues.isEmpty then .ok (trimString question, options.map trimString)
  else .error issues

/-! ## Data model and backend environment -/

/-- The session user returned by `supabase.auth.getUser()`. -/
structure User where
  id : String
deriving Repr, DecidableEq

/-- One row of the `polls` table. -/
structure Poll where
  id : String
  user_id : String
  question : String
  options : List String
deriving Repr, DecidableEq

/-- One row of the `votes` table (`user_id` is null for anonymous votes). -/
structure Vote where
  poll_id : String
  user_id : Option String
  option_index : Int
deriving Repr, DecidableEq

/-- The backend store state visible to the actions. -/
structure DB where
  polls : List Poll
  votes : List Vote
deriving Repr, DecidableEq

/-- A backend error object: a code (e.g. `PGRST116`) and a message. -/
structure DbError where
  code : String
  message : String
deriving Repr, DecidableEq

/-- Resolution of an action body: a value returned normally, or an
exception thrown past the action boundary (as `pollSchema.parse` does). -/
inductive ActionOutcome where
  | ret (e : ErrVal)
  | thrown (issues : List Issue)
deriving Repr, DecidableEq

/-- The `if (validatedOptionIndex < 0 || validatedOptionIndex >= pollData.options.length)`
range check of `submitVote`. -/
def optionOutOfRange (i : Int) (len : Nat) : Bool :=
  i < 0 || (len : Int) ≤ i

/-! ## login (auth-actions.ts) -/

/-- Backend responses consumed by `login`. -/
structure LoginEnv where
  signInError : Option String
  now : Nat

/-- Result of `login`: the returned object's `error` field and the
rate-limit table after the call. -/
structure LoginOutput where
  error : ErrVal
  rl : RLTable
deriving Repr, DecidableEq

/-- `login(data)`: rate-limit on `login-<email>`, then `loginSchema.safeParse`,
then `auth.signInWithPassword` with a generic failure message. -/
def login (env : LoginEnv) (rl : RLTable) (email password : String) : LoginOutput :=
  let rc := checkRateLimit rl ("login-" ++ email) env.now
  if !rc.1 then
    { error := .msg "Too many login attempts. Please try again later.", rl := rc.2 }
  else
    match loginSchemaParse email password with
    | .error issues => { error := formErrorsHead issues, rl := rc.2 }
    | .ok _ =>
        match env.signInError with
        | some _ => { error := .msg "Login failed. Please check your credentials.", rl := rc.2 }
        | none => { error := .nullv, rl := rc.2 }

/-! ## createPoll -/

/-- Backend responses consumed by `createPoll`: the session user (both
`auth.getUser()` calls), the error of the second `getUser` call, the error
of the `polls` insert, the id the store assigns to a new row, and the
clock. -/
structure CreateEnv where
  user : Option User
  userErrorMsg : Option String
  insertError : Option DbError
  newId : String
  now : Nat

/-- Result of `createPoll`: outcome (returned object or thrown zod error),
rate-limit table, database, server-side log, and whether
`revalidatePath("/polls")` ran. -/
structure CreateOutput where
  result : ActionOutcome
  rl : RLTable
  db : DB
  log : List String
  revalidated : Bool
deriving Repr, DecidableEq

/-- The rate-limit key of `createPoll`:
`user ? 'create-poll-' + user.id : 'create-poll-anonymous'`. -/
def createPollKey : Option User → String
  | some u => "create-poll-" ++ u.id
  | none => "create-poll-anonymous"

/-- `createPoll(formData)` of the source: resolve the user for the
rate-limit key, gate, then `pollSchema.parse` (which throws on failure),
then the second `getUser` (raw `userError.message` returned), the
logged-in check, and the insert with a generic failure message. -/
def createPoll (env : CreateEnv) (rl : RLTable) (db : DB)
    (question : String) (optionsRaw : List String) : CreateOutput :=
  let rc := checkRateLimit rl (createPollKey env.user) env.now
  if !rc.1 then
    { result := .ret (.msg "Too many poll creation attempts. Please try again later."),
      rl := rc.2, db := db, log := [], revalidated := false }
  else
    match pollSchemaParse question (optionsRaw.filter (fun s => !s.isEmpty)) with
    | .error issues =>
        { result := .thrown issues, rl := rc.2, db := db, log := [], revalidated := false }
    | .ok qo =>
        match env.userErrorMsg with
        | some m =>
            { result := .ret (.msg m), rl := rc.2, db := db, log := [], revalidated := false }
        | none =>
            match env.user with
            | none =>
                { result := .ret (.msg "You must be logged in to create a poll."),
                  rl := rc.2, db := db, log := [], revalidated := false }
            | some u =>
                match env.insertError with
                | some e =>
                    { result := .ret (.msg "Failed to create poll. Please try again."),
                      rl := rc.2, db := db,
                      log := ["Error creating poll: " ++ e.message], revalidated := false }
                | none =>
                    { result := .ret .nullv, rl := rc.2,
                      db := { db with polls := db.polls ++ [⟨env.newId, u.id, qo.1, qo.2⟩] },
                      log := [], revalidated := true }

/-! ## submitVote -/

/-- Backend responses consumed by `submitVote`: the session user (both
`getUser` calls), an injected failure for the poll-options select, an
injected failure for the existing-vote select, and the votes-insert
error. -/
structure VoteEnv where
  user : Option User
  pollFetchError : Option DbError
  voteCheckError : Option DbError
  insertError : Option DbError
  now : Nat

/-- Result of `submitVote`. -/
structure VoteOutput where
  error : ErrVal
  rl : RLTable
  db : DB
  log : List String
  inserted : Bool
deriving Repr, DecidableEq

/-- The vote insert tail of `submitVote` (`supabase.from("votes").insert`). -/
def voteInsertStep (env : VoteEnv) (rl : RLTable) (db : DB)
    (vid : String) (vidx : Int) : VoteOutput :=
  match env.insertError with
  | some e =>
      { error := .msg "Failed to submit vote. Please try again.", rl := rl, db := db,
        log := ["Error submitting vote: " ++ e.message], inserted := false }
  | none =>
      { error := .nullv, rl := rl,
        db := { db with votes := db.votes ++ [⟨vid, env.user.map User.id, vidx⟩] },
        log := [], inserted := true }

/-- The rate-limit key of `submitVote`:
`user ? 'submit-vote-' + user.id : 'submit-vote-anonymous'`. -/
def submitVoteKey : Option User → String
  | some u => "submit-vote-" ++ u.id
  | none => "submit-vote-anonymous"

/-- `submitVote(pollId, optionIndex)` of the source: `voteSchema.safeParse`
first, then the rate-limit gate, then the poll-options fetch, the range
check, the duplicate-vote check for authenticated users (a check failure
with a code other than `PGRST116` is a retrieval failure), then the
insert. -/
def submitVote (env : VoteEnv) (rl : RLTable) (db : DB)
    (pollId : String) (optionIndex : Int) : VoteOutput :=
  match voteSchemaParse pollId optionIndex with
  | .error issues =>
      { error := formErrorsHead issues, rl := rl, db := db, log := [], inserted := false }
  | .ok v =>
      let vid := v.1
      let vidx := v.2
      let rc := checkRateLimit rl (submitVoteKey env.user) env.now
      if !rc.1 then
        { error := .msg "Too many voting attempts. Please try again later.",
          rl := rc.2, db := db, log := [], inserted := false }
      else
        let pollData : Option Poll :=
          if env.pollFetchError.isSome then none
          else db.polls.find? (fun p => p.id = vid)
        match pollData with
        | none =>
            { error := .msg "Poll not found or failed to retrieve poll options.",
              rl := rc.2, db := db, log := ["Error fetching poll for voting"],
              inserted := false }
        | some poll =>
            if optionOutOfRange vidx poll.options.length then
              { error := .msg "Invalid option selected.", rl := rc.2, db := db,
                log := [], inserted := false }
            else
              match env.user with
              | some su =>
                  match env.voteCheckError with
                  | some e =>
                      if e.code ≠ "PGRST116" then
                        { error := .msg "Failed to check for existing vote.",
                          rl := rc.2, db := db,
                          log := ["Error checking for existing vote: " ++ e.message],
                          inserted := false }
                      else voteInsertStep env rc.2 db vid vidx
                  | none =>
                      match db.votes.find?
                          (fun w => w.poll_id = vid && w.user_id = some su.id) with
                      | some _ =>
                          { error := .msg "You have already voted on this poll.",
                            rl := rc.2, db := db, log := [], inserted := false }
                      | none => voteInsertStep env rc.2 db vid vidx
              | none => voteInsertStep env rc.2 db vid vidx

/-! ## deletePoll -/

/-- Backend responses consumed by `deletePoll`. -/
structure DeleteEnv where
  user : Option User
  userErrorMsg : Option String
  fetchPollError : Option DbError
  deleteError : Option DbError
  now : Nat

/-- Result of `deletePoll`; `deleteIssued` records whether the backend
delete call was made at all. -/
structure DeleteOutput where
  error : ErrVal
  rl : RLTable
  db : DB
  log : List String
  deleteIssued : Bool
  revalidated : Bool
deriving Repr, DecidableEq

/-- The rate-limit key of `deletePoll`:
`user ? 'delete-poll-' + user.id : 'delete-poll-anonymous'`. -/
def deletePollKey : Option User → String
  | some u => "delete-poll-" ++ u.id
  | none => "delete-poll-anonymous"

/-- `deletePoll(id)` of the source: `idSchema.safeParse` first, then the
rate-limit gate, the `userError`/logged-in checks, the ownership fetch,
the owner comparison, and the delete filtered by both the poll id and the
owner id. -/
def deletePoll (env : DeleteEnv) (rl : RLTable) (db : DB) (id : String) : DeleteOutput :=
  match idSchemaParse id with
  | .error issues =>
      { error := formErrorsHead issues, rl := rl, db := db, log := [],
        deleteIssued := false, revalidated := false }
  | .ok vid =>
      let rc := checkRateLimit rl (deletePollKey env.user) env.now
      if !rc.1 then
        { error := .msg "Too many poll deletion attempts. Please try again later.",
          rl := rc.2, db := db, log := [], deleteIssued := false, revalidated := false }
      else
        match env.userErrorMsg with
        | some m =>
            { error := .msg m, rl := rc.2, db := db, log := [],
              deleteIssued := false, revalidated := false }
        | none =>
            match env.user with
            | none =>
                { error := .msg "You must be logged in to delete a poll.",
                  rl := rc.2, db := db, log := [], deleteIssued := false,
                  revalidated := false }
            | some u =>
                let poll : Option Poll :=
                  if env.fetchPollError.isSome then none
                  else db.polls.find? (fun p => p.id = vid)
                match poll with
                | none =>
                    { error := .msg "Poll not found or failed to verify ownership.",
                      rl := rc.2, db := db, log := ["Error fetching poll for deletion"],
                      deleteIssued := false, revalidated := false }
                | some p =>
                    if p.user_id ≠ u.id then
                      { error := .msg "You are not authorized to delete this poll.",
                        rl := rc.2, db := db, log := [], deleteIssued := false,
                        revalidated := false }
                    else
                      match env.deleteError with
                      | some e =>
                          { error := .msg "Failed to delete poll. Please try again.",
                            rl := rc.2, db := db,
                            log := ["Error deleting poll: " ++ e.message],
                            deleteIssued := true, revalidated := false }
                      | none =>
                          { error := .nullv, rl := rc.2,
                            db := ⟨db.polls.filter (fun q => !(q.id = vid && q.user_id = u.id)), db.votes⟩,
                            log := [], deleteIssued := true, revalidated := true }

/-! ## Concrete identifiers used by witnesses and counterexamples -/

/-- A syntactically valid poll id. -/
def pollId1 : String := "11111111-1111-1111-1111-111111111111"

/-- A second, distinct syntactically valid poll id. -/
def pollId2 : String := "22222222-2222-2222-2222-222222222222"

/-! ## C3 -/

/-- C3 counterexample: `createPoll` with the length-4 question `"abcd"`
does not return an error result caught at the action boundary — the
`pollSchema.parse` failure is thrown and propagates past the action. -/
theorem createPoll_short_question_thrown_cex :
    (createPoll ⟨some ⟨"u1"⟩, none, none, "n1", 0⟩ [] ⟨[], []⟩ "abcd" ["yes", "no"]).result
      = ActionOutcome.thrown
          [⟨["question"], "Question must be at least 5 characters long"⟩] := by
  decide

/-- C3 (amended): a question of length 4 is rejected by `pollSchemaParse`;
`createPoll` propagates a failing parse by throwing the zod issues past the
action boundary (not by returning an error result); a question of length 5
with at least two options of valid length passes the schema. -/
theorem createPoll_question_length_boundary
    (q : String) (opts : List String) (hq : q.length = 4) :
    (∀ d, pollSchemaParse q opts ≠ .ok d) ∧
    (∀ (env : CreateEnv) (rl : RLTable) (db : DB) (q' : String)
       (optsRaw : List String) (issues : List Issue),
       (checkRateLimit rl (createPollKey env.user) env.now).1 = true →
       pollSchemaParse q' (optsRaw.filter (fun s => !s.isEmpty)) = .error issues →
       (createPoll env rl db q' optsRaw).result = .thrown issues) ∧
    (∀ (q5 : String) (opts5 : List String), q5.length = 5 → 2 ≤ opts5.length →
       (∀ o ∈ opts5, 1 ≤ o.length ∧ o.length ≤ 100) →
       pollSchemaParse q5 opts5 = .ok (trimString q5, opts5.map trimString)) := by
  refine ⟨?_, ?_, ?_⟩
  · intro d h
    simp [pollSchemaParse, hq] at h
  · intro env rl db q' optsRaw issues hrc hparse
    simp [createPoll, hrc, hparse]
  · intro q5 opts5 h5 hlen hopts
    have hflat : (opts5.enum.map (fun p => optionIssues p.1 p.2)).flatten = [] := by
      rw [List.flatten_eq_nil_iff]
      intro x hx
      rcases List.mem_map.mp hx with ⟨p, hp, rfl⟩
      rw [List.mem_enum_iff_getElem?] at hp
      have hmem : p.2 ∈ opts5 := List.getElem?_mem hp
      rcases hopts p.2 hmem with ⟨hlo, hhi⟩
      simp [optionIssues, Nat.not_lt.mpr hlo, Nat.not_lt.mpr hhi]
    simp [pollSchemaParse, h5, hflat, Nat.not_lt.mpr hlen]

/-- Witness for C3 (amended) at a concrete length-4 question and a concrete
length-5 question. -/
theorem createPoll_question_length_boundary_witness :
    pollSchemaParse "12345" ["yes", "no"] = .ok ("12345", ["yes", "no"]) := by
  have h := (createPoll_question_length_boundary "abcd" [] (by decide)).2.2
    "12345" ["yes", "no"] (by decide) (by decide) (by decide)
  exact h.trans (congrArg Except.ok (by decide))

/-! ## C4 -/

/-- C4 counterexample: the raw `auth.getUser` error message is returned
verbatim as the error string of `createPoll`, not replaced by a generic
message. -/
theorem createPoll_raw_user_error_cex :
    (createPoll ⟨some ⟨"u1"⟩, some "Raw backend auth failure detail", none, "n1", 0⟩
        [] ⟨[], []⟩ "What is your favorite color" ["red", "blue"]).result
      = ActionOutcome.ret (.msg "Raw backend auth failure detail") := by
  decide

/-- C4 (amended): errors of the store's table operations are replaced with
fixed generic messages and their detail goes to the server-side log (the
`createPoll` insert error and the `deletePoll` delete error shown), but the
session-resolution error of `auth.getUser` is returned verbatim by
`createPoll`. -/
theorem backend_error_messages (e : DbError) (u : User) (db : DB) (now : Nat)
    (nid m : String) :
    ((createPoll ⟨some u, none, some e, nid, now⟩ [] db
        "What is your favorite color" ["red", "blue"]).result
      = .ret (.msg "Failed to create poll. Please try again.") ∧
     (createPoll ⟨some u, none, some e, nid, now⟩ [] db
        "What is your favorite color" ["red", "blue"]).log
      = ["Error creating poll: " ++ e.message]) ∧
    ((deletePoll ⟨some ⟨"owner1"⟩, none, none, some e, now⟩ []
        ⟨[⟨pollId1, "owner1", "Best color", ["a", "b"]⟩], []⟩ pollId1).error
      = .msg "Failed to delete poll. Please try again." ∧
     (deletePoll ⟨some ⟨"owner1"⟩, none, none, some e, now⟩ []
        ⟨[⟨pollId1, "owner1", "Best color", ["a", "b"]⟩], []⟩ pollId1).log
      = ["Error deleting poll: " ++ e.message]) ∧
    (createPoll ⟨some u, some m, none, nid, now⟩ [] db
        "What is your favorite color" ["red", "blue"]).result = .ret (.msg m) := by
  refine ⟨⟨?_, ?_⟩, ⟨?_, ?_⟩, ?_⟩ <;> rfl

/-! ## C8 -/

/-- C8 counterexample: `login` with the schema-invalid email `"bad"` returns
`{ error: undefined }` — `flatten().formErrors` is empty for a field-level
issue, so no validation message string is carried by the result. -/
theorem login_invalid_email_undefined_cex :
    (login ⟨none, 0⟩ [] "bad" "123456").error = ErrVal.undef := by
  decide

/-- C8 (amended): for the top-level `idSchema` a failing parse returns the
first validation message as a string (`deletePoll` shown, before any gate or
backend work); for object schemas (`loginSchema` shown) field-level issues
land in `fieldErrors`, `formErrors` is empty, and the returned error is
`undefined` — in neither case the raw framework error object. -/
theorem validation_error_shape :
    (∀ (env : DeleteEnv) (rl : RLTable) (db : DB) (s : String),
       isUuid s = false →
       (deletePoll env rl db s).error = .msg "Invalid ID format" ∧
       (deletePoll env rl db s).rl = rl ∧ (deletePoll env rl db s).db = db) ∧
    (∀ (env : LoginEnv) (rl : RLTable) (email password : String),
       isValidEmail email = false →
       rlLookup rl ("login-" ++ email) = none →
       (login env rl email password).error = ErrVal.undef) := by
  constructor
  · intro env rl db s hs
    refine ⟨?_, ?_, ?_⟩ <;> simp [deletePoll, idSchemaParse, hs, formErrorsHead]
  · intro env rl email password hm hfresh
    have hc := crl_fresh rl ("login-" ++ email) env.now hfresh
    by_cases hp : password.length < 6
    · simp [login, hc, loginSchemaParse, hm, hp, formErrorsHead]
    · simp [login, hc, loginSchemaParse, hm, hp, formErrorsHead]

/-- Witness for C8 (amended) at concrete inputs. -/
theorem validation_error_shape_witness :
    (deletePoll ⟨none, none, none, none, 0⟩ [] ⟨[], []⟩ "nope").error
      = ErrVal.msg "Invalid ID format" ∧
    (login ⟨none, 0⟩ [] "bad2" "123456").error = ErrVal.undef :=
  ⟨(validation_error_shape.1 ⟨none, none, none, none, 0⟩ [] ⟨[], []⟩ "nope" (by decide)).1,
   validation_error_shape.2 ⟨none, 0⟩ [] "bad2" "123456" (by decide) rfl⟩

/-! ## C2 -/

/-- C2 counterexample: with the caller's delete key already saturated
(count 5 inside the window, so the limiter would deny), `deletePoll` on a
non-UUID id returns the id-validation error, not the rate-limit error —
schema validation runs before the rate-limit gate. -/
theorem deletePoll_validates_before_gate_cex :
    (checkRateLimit [("delete-poll-u1", ⟨5, 0⟩)] "delete-poll-u1" 1).1 = false ∧
    (deletePoll ⟨some ⟨"u1"⟩, none, none, none, 1⟩
        [("delete-poll-u1", ⟨5, 0⟩)] ⟨[], []⟩ "bad").error
      = ErrVal.msg "Invalid ID format" ∧
    ErrVal.msg "Invalid ID format"
      ≠ ErrVal.msg "Too many poll deletion attempts. Please try again later." := by
  decide

/-- C2 (amended): `submitVote` and `deletePoll` run schema/id validation
before the rate-limit gate (an invalid input returns the validation result
and leaves the rate-limit table untouched); when the gate denies, each
action returns its rate-limit error with the database unchanged and no
backend mutation issued; `createPoll` gates before schema validation, so on
denial it returns its rate-limit error even for an invalid question. -/
theorem rate_limit_gate_order :
    (∀ (env : DeleteEnv) (rl : RLTable) (db : DB) (s : String),
       isUuid s = false →
       (deletePoll env rl db s).rl = rl ∧ (deletePoll env rl db s).deleteIssued = false) ∧
    (∀ (env : VoteEnv) (rl : RLTable) (db : DB) (s : String) (i : Int),
       isUuid s = false →
       (submitVote env rl db s i).rl = rl ∧ (submitVote env rl db s i).inserted = false) ∧
    (∀ (env : DeleteEnv) (rl : RLTable) (db : DB) (s : String) (c w : Nat),
       isUuid s = true →
       rlLookup rl (deletePollKey env.user) = some ⟨c, w⟩ →
       env.now - w ≤ RESET_INTERVAL → MAX_ATTEMPTS ≤ c →
       (deletePoll env rl db s).error
           = .msg "Too many poll deletion attempts. Please try again later." ∧
       (deletePoll env rl db s).db = db ∧
       (deletePoll env rl db s).deleteIssued = false) ∧
    (∀ (env : VoteEnv) (rl : RLTable) (db : DB) (s : String) (i : Int) (c w : Nat),
       isUuid s = true → 0 ≤ i →
       rlLookup rl (submitVoteKey env.user) = some ⟨c, w⟩ →
       env.now - w ≤ RESET_INTERVAL → MAX_ATTEMPTS ≤ c →
       (submitVote env rl db s i).error
           = .msg "Too many voting attempts. Please try again later." ∧
       (submitVote env rl db s i).db = db ∧
       (submitVote env rl db s i).inserted = false) ∧
    (∀ (env : CreateEnv) (rl : RLTable) (db : DB) (q : String) (opts : List String)
       (c w : Nat),
       rlLookup rl (createPollKey env.user) = some ⟨c, w⟩ →
       env.now - w ≤ RESET_INTERVAL → MAX_ATTEMPTS ≤ c →
       (createPoll env rl db q opts).result
           = .ret (.msg "Too many poll creation attempts. Please try again later.") ∧
       (createPoll env rl db q opts).db = db) := by
  refine ⟨?_, ?_, ?_, ?_, ?_⟩
  · intro env rl db s hs
    constructor <;> simp [deletePoll, idSchemaParse, hs]
  · intro env rl db s i hs
    constructor <;> simp [submitVote, voteSchemaParse, hs]
  · intro env rl db s c w hs hl hw hc
    have hd := crl_deny rl (deletePollKey env.user) env.now c w hl hw hc
    refine ⟨?_, ?_, ?_⟩ <;> simp [deletePoll, idSchemaParse, hs, hd]
  · intro env rl db s i c w hs hi hl hw hc
    have hd := crl_deny rl (submitVoteKey env.user) env.now c w hl hw hc
    refine ⟨?_, ?_, ?_⟩ <;>
      simp [submitVote, voteSchemaParse, hs, Int.not_lt.mpr hi, hd]
  · intro env rl db q opts c w hl hw hc
    have hd := crl_deny rl (createPollKey env.user) env.now c w hl hw hc
    constructor <;> simp [createPoll, hd]

/-- Witness for C2 (amended): a saturated delete key denies with the
rate-limit message on a valid id. -/
theorem rate_limit_gate_order_witness :
    (deletePoll ⟨some ⟨"u9"⟩, none, none, none, 1⟩
        [("delete-poll-u9", ⟨5, 0⟩)] ⟨[], []⟩ pollId1).error
      = ErrVal.msg "Too many poll deletion attempts. Please try again later." :=
  (rate_limit_gate_order.2.2.1 ⟨some ⟨"u9"⟩, none, none, none, 1⟩
    [("delete-poll-u9", ⟨5, 0⟩)] ⟨[], []⟩ pollId1 5 0
    (by decide) (by decide) (by decide) (by decide)).1

/-! ## C5 -/

/-- C5: an authenticated user who already voted on a poll gets the
duplicate-conflict error on a second `submitVote` and the database is
unchanged; a different authenticated user voting on the same poll succeeds
and the vote is inserted; a failing existence check whose code is not
`PGRST116` yields the retrieval-failure error without inserting. -/
theorem submitVote_duplicate_guard (u1 u2 : String) (now : Nat) (e : DbError)
    (h12 : u1 ≠ u2) (hcode : e.code ≠ "PGRST116") :
    ((submitVote ⟨some ⟨u1⟩, none, none, none, now⟩ []
        ⟨[⟨pollId1, "owner", "Best color", ["a", "b"]⟩], [⟨pollId1, some u1, 0⟩]⟩
        pollId1 0).error = .msg "You have already voted on this poll." ∧
     (submitVote ⟨some ⟨u1⟩, none, none, none, now⟩ []
        ⟨[⟨pollId1, "owner", "Best color", ["a", "b"]⟩], [⟨pollId1, some u1, 0⟩]⟩
        pollId1 0).db
       = ⟨[⟨pollId1, "owner", "Best color", ["a", "b"]⟩], [⟨pollId1, some u1, 0⟩]⟩ ∧
     (submitVote ⟨some ⟨u1⟩, none, none, none, now⟩ []
        ⟨[⟨pollId1, "owner", "Best color", ["a", "b"]⟩], [⟨pollId1, some u1, 0⟩]⟩
        pollId1 0).inserted = false) ∧
    ((submitVote ⟨some ⟨u2⟩, none, none, none, now⟩ []
        ⟨[⟨pollId1, "owner", "Best color", ["a", "b"]⟩], [⟨pollId1, some u1, 0⟩]⟩
        pollId1 1).error = .nullv ∧
     (submitVote ⟨some ⟨u2⟩, none, none, none, now⟩ []
        ⟨[⟨pollId1, "owner", "Best color", ["a", "b"]⟩], [⟨pollId1, some u1, 0⟩]⟩
        pollId1 1).db.votes
       = [⟨pollId1, some u1, 0⟩, ⟨pollId1, some u2, 1⟩]) ∧
    ((submitVote ⟨some ⟨u1⟩, none, some e, none, now⟩ []
        ⟨[⟨pollId1, "owner", "Best color", ["a", "b"]⟩], []⟩
        pollId1 0).error = .msg "Failed to check for existing vote." ∧
     (submitVote ⟨some ⟨u1⟩, none, some e, none, now⟩ []
        ⟨[⟨pollId1, "owner", "Best color", ["a", "b"]⟩], []⟩
        pollId1 0).inserted = false) := by
  have huuid : isUuid pollId1 = true := by decide
  refine ⟨⟨?_, ?_, ?_⟩, ⟨?_, ?_⟩, ⟨?_, ?_⟩⟩ <;>
    simp [submitVote, voteSchemaParse, huuid, checkRateLimit, rlLookup,
      List.find?, optionOutOfRange, voteInsertStep, h12, hcode]

/-- Witness for C5 at concrete users and a concrete failing error code. -/
theorem submitVote_duplicate_guard_witness :
    (submitVote ⟨some ⟨"alice"⟩, none, none, none, 0⟩ []
        ⟨[⟨pollId1, "owner", "Best color", ["a", "b"]⟩], [⟨pollId1, some "alice", 0⟩]⟩
        pollId1 0).error = .msg "You have already voted on this poll." ∧
    (submitVote ⟨some ⟨"bob"⟩, none, none, none, 0⟩ []
        ⟨[⟨pollId1, "owner", "Best color", ["a", "b"]⟩], [⟨pollId1, some "alice", 0⟩]⟩
        pollId1 1).error = .nullv :=
  ⟨(submitVote_duplicate_guard "alice" "bob" 0 ⟨"PGRST301", "boom"⟩
      (by decide) (by decide)).1.1,
   (submitVote_duplicate_guard "alice" "bob" 0 ⟨"PGRST301", "boom"⟩
      (by decide) (by decide)).2.1.1⟩

/-! ## C6 -/

/-- C6: for a poll with a nonempty option list, `optionIndex =
options.length` fails the range check and `submitVote` rejects it as an
invalid option, while `optionIndex = options.length - 1` passes the range
check and (for an anonymous caller with a healthy backend) the vote is
accepted. -/
theorem submitVote_option_index_range (opts : List String) (now : Nat)
    (h : 1 ≤ opts.length) :
    optionOutOfRange (opts.length : Int) opts.length = true ∧
    optionOutOfRange ((opts.length : Int) - 1) opts.length = false ∧
    (submitVote ⟨none, none, none, none, now⟩ []
        ⟨[⟨pollId1, "owner", "Best color", opts⟩], []⟩
        pollId1 (opts.length : Int)).error = .msg "Invalid option selected." ∧
    (submitVote ⟨none, none, none, none, now⟩ []
        ⟨[⟨pollId1, "owner", "Best color", opts⟩], []⟩
        pollId1 ((opts.length : Int) - 1)).error = .nullv := by
  have huuid : isUuid pollId1 = true := by decide
  have h1 : optionOutOfRange (opts.length : Int) opts.length = true := by
    simp [optionOutOfRange]
  have h2 : optionOutOfRange ((opts.length : Int) - 1) opts.length = false := by
    simp only [optionOutOfRange, Bool.or_eq_false_iff, decide_eq_false_iff_not]
    omega
  have hnn1 : ¬ ((opts.length : Int) < 0) := by omega
  have hnn2 : ¬ ((opts.length : Int) - 1 < 0) := by omega
  refine ⟨h1, h2, ?_, ?_⟩
  · simp [submitVote, voteSchemaParse, huuid, hnn1, checkRateLimit, rlLookup,
      List.find?, submitVoteKey, h1]
  · simp [submitVote, voteSchemaParse, huuid, hnn2, checkRateLimit, rlLookup,
      List.find?, submitVoteKey, h2, voteInsertStep]

/-- Witness for C6 on a two-option poll. -/
theorem submitVote_option_index_range_witness :
    (submitVote ⟨none, none, none, none, 0⟩ []
        ⟨[⟨pollId1, "owner", "Best color", ["a", "b"]⟩], []⟩
        pollId1 2).error = .msg "Invalid option selected." ∧
    (submitVote ⟨none, none, none, none, 0⟩ []
        ⟨[⟨pollId1, "owner", "Best color", ["a", "b"]⟩], []⟩
        pollId1 1).error = .nullv :=
  ⟨(submitVote_option_index_range ["a", "b"] 0 (by decide)).2.2.1,
   (submitVote_option_index_range ["a", "b"] 0 (by decide)).2.2.2⟩

/-! ## C7 -/

/-- C7: `deletePoll` by a caller who is not the poll's owner returns the
authorization error, leaves the database unchanged and issues no delete;
invoked by the owner it removes the poll; the backend delete filters by the
owner id as well as the poll id, so other rows survive. -/
theorem deletePoll_owner_check (caller owner other q q2 : String)
    (opts opts2 : List String) (votes : List Vote) (now : Nat)
    (hne : caller ≠ owner) :
    ((deletePoll ⟨some ⟨caller⟩, none, none, none, now⟩ []
        ⟨[⟨pollId1, owner, q, opts⟩], votes⟩ pollId1).error
       = .msg "You are not authorized to delete this poll." ∧
     (deletePoll ⟨some ⟨caller⟩, none, none, none, now⟩ []
        ⟨[⟨pollId1, owner, q, opts⟩], votes⟩ pollId1).db
       = ⟨[⟨pollId1, owner, q, opts⟩], votes⟩ ∧
     (deletePoll ⟨some ⟨caller⟩, none, none, none, now⟩ []
        ⟨[⟨pollId1, owner, q, opts⟩], votes⟩ pollId1).deleteIssued = false) ∧
    ((deletePoll ⟨some ⟨owner⟩, none, none, none, now⟩ []
        ⟨[⟨pollId1, owner, q, opts⟩], votes⟩ pollId1).error = .nullv ∧
     (deletePoll ⟨some ⟨owner⟩, none, none, none, now⟩ []
        ⟨[⟨pollId1, owner, q, opts⟩], votes⟩ pollId1).db.polls = [] ∧
     (deletePoll ⟨some ⟨owner⟩, none, none, none, now⟩ []
        ⟨[⟨pollId1, owner, q, opts⟩], votes⟩ pollId1).deleteIssued = true) ∧
    (deletePoll ⟨some ⟨owner⟩, none, none, none, now⟩ []
        ⟨[⟨pollId1, owner, q, opts⟩, ⟨pollId2, other, q2, opts2⟩], votes⟩
        pollId1).db.polls = [⟨pollId2, other, q2, opts2⟩] := by
  have huuid : isUuid pollId1 = true := by decide
  have hne12 : pollId2 ≠ pollId1 := by decide
  have hno : owner ≠ caller := fun hx => hne hx.symm
  refine ⟨⟨?_, ?_, ?_⟩, ⟨?_, ?_, ?_⟩, ?_⟩ <;>
    simp [deletePoll, idSchemaParse, huuid, checkRateLimit, rlLookup,
      List.find?, deletePollKey, hno, hne12]

/-- Witness for C7 at concrete identities. -/
theorem deletePoll_owner_check_witness :
    (deletePoll ⟨some ⟨"mallory"⟩, none, none, none, 0⟩ []
        ⟨[⟨pollId1, "owner", "Best color", ["a", "b"]⟩], []⟩ pollId1).error
      = .msg "You are not authorized to delete this poll." ∧
    (deletePoll ⟨some ⟨"owner"⟩, none, none, none, 0⟩ []
        ⟨[⟨pollId1, "owner", "Best color", ["a", "b"]⟩], []⟩ pollId1).db.polls = [] :=
  ⟨(deletePoll_owner_check "mallory" "owner" "x" "Best color" "Q2" ["a", "b"] [] [] 0
      (by decide)).1.1,
   (deletePoll_owner_check "mallory" "owner" "x" "Best color" "Q2" ["a", "b"] [] [] 0
      (by decide)).2.1.2.1⟩
